import Mathlib

/-
Verification of the blog-post publisher in `src/post_generator.py` (class
`BlogTool`, method `add_post`).  The embedding models:

* JSON values as loaded by Python's `json` module (numbers restricted to
  integers, which is all this program ever reads or writes);
* the filesystem state the program touches: the index file `posts.json`,
  the output folder `blogposts`, and the generated HTML files;
* Python `str.strip`, string truthiness, `int(...)` parsing (ASCII subset),
  and `json.dump(..., indent=2)` serialization;
* the fixed `HTML_TEMPLATE` format string and `.format` substitution;
* `add_post` itself as a state-passing function, with injected outcomes for
  the two file writes so that I/O-failure behaviour can be stated.
-/

namespace PostGen

/-- JSON values as produced by `json.load` / consumed by `json.dump`.
Numbers are restricted to integers: the program only ever writes `id` and
`popularity` (both Python `int`s), and the claims under study never involve
fractional numbers. -/
inductive Json where
  | null
  | bool (b : Bool)
  | num (n : Int)
  | str (s : String)
  | arr (elems : List Json)
  | obj (fields : List (String × Json))

/-- ASCII whitespace as recognised by Python's `str.strip()` and `int(...)`
(the Unicode whitespace code points Python additionally strips are outside
the scope of the claims). -/
def pyIsSpace (c : Char) : Bool :=
  c = ' ' || c = '\t' || c = '\n' || c = '\x0d' || c = '\x0b' || c = '\x0c'

/-- Python `s.strip()`: remove leading and trailing whitespace. -/
def pyStrip (s : String) : String :=
  String.mk (((s.data.dropWhile pyIsSpace).reverse.dropWhile pyIsSpace).reverse)

/-- Digit-run scanner for Python `int(...)`: one or more ASCII digits with
single underscores allowed between digits (`prevDigit` records whether the
previous character was a digit, so `_` may neither start, end, repeat, nor
follow another `_`).  Returns the accumulated value. -/
def pyDigitsAux : List Char → Nat → Bool → Option Nat
  | [], acc, prevDigit => if prevDigit then some acc else none
  | c :: cs, acc, prevDigit =>
    if c.isDigit then pyDigitsAux cs (10 * acc + (c.toNat - 48)) true
    else if c = '_' && prevDigit then pyDigitsAux cs acc false
    else none

/-- Python `int(s)` for base 10: strip whitespace, optional single sign,
then a digit run; `none` models `ValueError`. -/
def pyInt (s : String) : Option Int :=
  match (pyStrip s).data with
  | '+' :: cs => (pyDigitsAux cs 0 false).map (fun n => (n : Int))
  | '-' :: cs => (pyDigitsAux cs 0 false).map (fun n => -(n : Int))
  | cs => (pyDigitsAux cs 0 false).map (fun n => (n : Int))

/-- Lowercase hexadecimal digit, as used by Python's `json` `\uXXXX` escapes. -/
def hexDigit (n : Nat) : Char :=
  if n < 10 then Char.ofNat (48 + n) else Char.ofNat (87 + n)

/-- A `\uXXXX` escape (four lowercase hex digits). -/
def uEscape (n : Nat) : String :=
  String.mk ['\\', 'u', hexDigit (n / 4096 % 16), hexDigit (n / 256 % 16),
             hexDigit (n / 16 % 16), hexDigit (n % 16)]

/-- Escaping of one character inside a JSON string literal, following
Python `json.dump` with its default `ensure_ascii=True`: `"` and `\` and the
short control escapes, `\uXXXX` for other control characters and for all
non-ASCII characters (UTF-16 surrogate pairs beyond U+FFFF). -/
def escapeChar (c : Char) : String :=
  let n := c.toNat
  if c = '"' then "\\\""
  else if c = '\\' then "\\\\"
  else if c = '\n' then "\\n"
  else if c = '\t' then "\\t"
  else if c = '\x0d' then "\\r"
  else if n = 8 then "\\b"
  else if n = 12 then "\\f"
  else if n < 32 then uEscape n
  else if n ≤ 126 then String.singleton c
  else if n < 65536 then uEscape n
  else uEscape (55296 + (n - 65536) / 1024) ++ uEscape (56320 + (n - 65536) % 1024)

/-- A JSON string literal for `s`, Python-style. -/
def jsonQuote (s : String) : String :=
  "\"" ++ String.join (s.data.map escapeChar) ++ "\""

/-- Indentation prefix at nesting level `lvl` for `indent=2`. -/
def indentStr (lvl : Nat) : String :=
  String.mk (List.replicate (2 * lvl) ' ')

mutual
/-- Python `json.dump(v, f, indent=2)` rendered to a string: containers
open with a newline and indent, items are separated by `",\n" + indent`,
the closing bracket sits at the parent level; empty containers collapse;
key/value pairs use the default `": "` separator; dict keys keep insertion
order. -/
def dumpJson (lvl : Nat) : Json → String
  | .null => "null"
  | .bool true => "true"
  | .bool false => "false"
  | .num n => toString n
  | .str s => jsonQuote s
  | .arr [] => "[]"
  | .arr (x :: xs) =>
      "[\n" ++ indentStr (lvl + 1) ++ dumpJson (lvl + 1) x ++
        dumpArrItems (lvl + 1) xs ++ "\n" ++ indentStr lvl ++ "]"
  | .obj [] => "\x7b\x7d"
  | .obj (kv :: kvs) =>
      "\x7b\n" ++ indentStr (lvl + 1) ++ dumpPair (lvl + 1) kv ++
        dumpObjItems (lvl + 1) kvs ++ "\n" ++ indentStr lvl ++ "\x7d"

/-- One `"key": value` pair. -/
def dumpPair (lvl : Nat) : String × Json → String
  | (k, v) => jsonQuote k ++ ": " ++ dumpJson lvl v

/-- Remaining array items, each preceded by `",\n" + indent`. -/
def dumpArrItems (lvl : Nat) : List Json → String
  | [] => ""
  | x :: xs => ",\n" ++ indentStr lvl ++ dumpJson lvl x ++ dumpArrItems lvl xs

/-- Remaining object items, each preceded by `",\n" + indent`. -/
def dumpObjItems (lvl : Nat) : List (String × Json) → String
  | [] => ""
  | kv :: kvs => ",\n" ++ indentStr lvl ++ dumpPair lvl kv ++ dumpObjItems lvl kvs
end

/-- Configuration constant `POSTS_JSON_PATH` (line 14 of the source). -/
def POSTS_JSON_PATH : String := "posts.json"

/-- Configuration constant `BLOGPOSTS_FOLDER` (line 15 of the source). -/
def BLOGPOSTS_FOLDER : String := "blogposts"

/-- The six raw strings `add_post` reads from the form: the five
`QLineEdit` fields and the content text area (lines 146-152). -/
structure RawInput where
  title : String
  category : String
  image : String
  description : String
  popularity : String
  content : String
deriving DecidableEq, Repr

/-- The new index entry built at lines 172-181, with its Python field
types (`id` and `popularity` are ints, the rest strings). -/
structure PostRecord where
  id : Int
  image : String
  date : String
  category : String
  title : String
  description : String
  url : String
  popularity : Int
deriving DecidableEq, Repr

/-- The dict literal of lines 172-181 as a JSON object; Python dicts keep
insertion order, so `json.dump` writes the keys in exactly this order. -/
def PostRecord.toJson (r : PostRecord) : Json :=
  .obj [("id", .num r.id), ("image", .str r.image), ("date", .str r.date),
        ("category", .str r.category), ("title", .str r.title),
        ("description", .str r.description), ("url", .str r.url),
        ("popularity", .num r.popularity)]

/-- State of the index file `posts.json`, at the granularity `json.load`
observes: absent (`FileNotFoundError`), present but not valid JSON
(`json.JSONDecodeError`), or present and parsing to a JSON value.  `text`
carries the raw file content; for files written by this tool it is the
`json.dump` output (the parse field is authoritative for loads). -/
inductive IndexFile where
  | missing
  | invalid (text : String)
  | valid (v : Json) (text : String)

/-- The filesystem state `add_post` reads and writes: the index file, the
output folder's existence, and the HTML files (newest first; a rewritten
path shadows older entries). -/
structure FS where
  index : IndexFile
  folderExists : Bool
  files : List (String × String)

/-- How `add_post` can fail: the two validation message boxes
(lines 155 and 161), an uncaught Python exception (the index parsed to a
JSON value that is not a list of dicts, so line 170 or 182 raises
`TypeError`/`AttributeError`), or an `OSError` from one of the two file
writes. -/
inductive AddPostError where
  | missingField
  | popularityNotNumeric
  | pyRuntimeError
  | writeFailed
deriving DecidableEq, Repr

/-- Injected outcomes for the two `open(..., 'w')` writes (lines 196-200),
so that I/O-failure behaviour can be stated; `true` means the write
succeeds. -/
structure WriteOutcome where
  htmlOk : Bool
  indexOk : Bool
deriving DecidableEq, Repr

/-- Successful result: the record appended to the index and the path of
the HTML file written (reported in the success message box, line 202). -/
structure AddPostOk where
  record : PostRecord
  filePath : String

/-- Python dict lookup for a dict built by `json.load`: with duplicate
keys the last occurrence wins. -/
def dictLookup (kvs : List (String × Json)) (k : String) : Option Json :=
  kvs.reverse.lookup k

/-- The value `post.get('id', 0)` contributes to `max` at line 170.
A non-dict element has no `.get` (`AttributeError`); a dict whose `id` is
neither a number nor a bool makes the later `max` comparison raise
`TypeError`; Python bools are ints (`True == 1`).  Both exceptions are
collapsed into `pyRuntimeError`: each escapes `add_post` before any write. -/
def recordIdOrDefault : Json → Except AddPostError Int
  | .obj kvs =>
    match dictLookup kvs "id" with
    | none => .ok 0
    | some (.num n) => .ok n
    | some (.bool b) => .ok (if b then 1 else 0)
    | some _ => .error .pyRuntimeError
  | _ => .error .pyRuntimeError

/-- The list comprehension `[post.get('id', 0) for post in posts]` at
line 170: left to right, first exception wins. -/
def collectIds : List Json → Except AddPostError (List Int)
  | [] => .ok []
  | p :: rest =>
    match recordIdOrDefault p with
    | .error e => .error e
    | .ok n =>
      match collectIds rest with
      | .error e => .error e
      | .ok ns => .ok (n :: ns)

/-- Python `max` on a nonempty list (`add_post` only applies it to
`ids ++ [0]`, which is never empty; the `[]` case is unreachable). -/
def listMax : List Int → Int
  | [] => 0
  | x :: xs => xs.foldl max x

/-- The `try: json.load ... except (FileNotFoundError, json.JSONDecodeError):
posts = []` block at lines 164-168: a missing or unparsable file silently
becomes the empty list. -/
def loadPosts : IndexFile → Json
  | .missing => .arr []
  | .invalid _ => .arr []
  | .valid v _ => v

/-- The f-string `f"{BLOGPOSTS_FOLDER}/post{new_id}.html"` at line 179. -/
def post_url (new_id : Int) : String :=
  BLOGPOSTS_FOLDER ++ "/post" ++ toString new_id ++ ".html"

/-- `os.path.join(BLOGPOSTS_FOLDER, f"post{new_id}.html")` at line 195
(POSIX separator). -/
def post_file_path (new_id : Int) : String :=
  BLOGPOSTS_FOLDER ++ "/post" ++ toString new_id ++ ".html"

/-- The record construction at lines 172-181: `date` is the
`datetime.now().strftime("%B %d, %Y")` stamp, passed in as `today`. -/
def mkRecord (raw : RawInput) (today : String) (new_id popularity : Int) : PostRecord :=
  { id := new_id, image := raw.image, date := today, category := raw.category,
    title := raw.title, description := raw.description,
    url := post_url new_id, popularity := popularity }

/-- Literal text of `HTML_TEMPLATE` (lines 19-65) from its start up to the
placeholder in `<title>{title} - ...`.  Braces and apostrophes appearing as
template text are written with `\x7b`, `\x7d`, `\x27` escapes; the Python
format-string escapes `\x7b\x7b` / `\x7d\x7d` are already resolved to
single braces, as `.format` renders them. -/
def SEG_A : String :=
  "\n<!DOCTYPE html>\n<html lang=\"en\">\n<head>\n    <meta charset=\"UTF-8\">\n    <meta name=\"viewport\" content=\"width=device-width, initial-scale=1.0\">\n    <title>"

/-- Template text between the `title` placeholder in `<title>` and the
`title` placeholder in the `<h1>` heading. -/
def SEG_B : String :=
  " - Abundant Coaches Hub</title>\n    <!-- Tailwind CSS -->\n    <script src=\"https://cdn.tailwindcss.com\"></script>\n    <!-- Google Fonts: Inter -->\n    <link rel=\"preconnect\" href=\"https://fonts.googleapis.com\">\n    <link rel=\"preconnect\" href=\"https://fonts.gstatic.com\" crossorigin>\n    <link href=\"https://fonts.googleapis.com/css2?family=Inter:wght@400;500;600;700;800;900&display=swap\" rel=\"stylesheet\">\n    <style>\n        body \x7b\n            font-family: \x27Inter\x27, sans-serif;\n        \x7d\n    </style>\n</head>\n<body class=\"bg-gray-50\">\n    <header class=\"bg-white shadow-sm\">\n        <nav class=\"container mx-auto px-6 py-4\">\n            <div class=\"text-2xl font-bold text-gray-900\"><a href=\"../index.html\">Abundant Coaches Hub</a></div>\n        </nav>\n    </header>\n\n    <main class=\"container mx-auto px-6 py-12 max-w-3xl\">\n        <article>\n            <h1 class=\"text-4xl font-extrabold text-gray-900\">"

/-- Template text between the `title` placeholder in `<h1>` and the `date`
placeholder. -/
def SEG_C : String :=
  "</h1>\n            <p class=\"text-lg text-gray-500 mt-2\">"

/-- Template text between the `date` and `category` placeholders (the
bullet is U+2022). -/
def SEG_D : String := " • "

/-- Template text between the `category` placeholder and the `image_url`
placeholder (the line after the `</p>` holds twelve trailing spaces in the
source). -/
def SEG_E : String :=
  "</p>\n            \n            <img class=\"w-full h-auto rounded-lg my-8 shadow-lg\" src=\""

/-- Template text between the `image_url` placeholder and the `title`
placeholder in the `alt` attribute. -/
def SEG_F : String := "\" alt=\""

/-- Template text between the `alt` placeholder and the `content`
placeholder. -/
def SEG_G : String :=
  "\">\n\n            <div class=\"prose lg:prose-xl text-gray-700\">\n                "

/-- Template text after the `content` placeholder to the end (the
copyright sign is U+00A9). -/
def SEG_H : String :=
  "\n            </div>\n        </article>\n    </main>\n\n    <footer class=\"bg-white text-gray-700 mt-16\">\n        <div class=\"container mx-auto px-6 py-8 text-center\">\n            <p>© 2025 Abundant Coaches Hub. All Rights Reserved.</p>\n        </div>\n    </footer>\n</body>\n</html>\n"

/-- The five named placeholders of `HTML_TEMPLATE`. -/
inductive TplField where
  | title
  | date
  | category
  | image_url
  | content
deriving DecidableEq, Repr

/-- One chunk of a Python format string: literal text or a `{name}`
placeholder. -/
inductive Tpl where
  | lit (s : String)
  | field (f : TplField)
deriving DecidableEq, Repr

/-- `HTML_TEMPLATE` (lines 19-65) in the chunk decomposition that
`str.format` performs: literal runs interleaved with its seven placeholder
occurrences (three of them `title`), in document order. -/
def HTML_TEMPLATE : List Tpl :=
  [.lit SEG_A, .field .title, .lit SEG_B, .field .title, .lit SEG_C,
   .field .date, .lit SEG_D, .field .category, .lit SEG_E,
   .field .image_url, .lit SEG_F, .field .title, .lit SEG_G,
   .field .content, .lit SEG_H]

/-- The keyword arguments of the `.format` call at lines 187-193. -/
def fieldValue (t d c i co : String) : TplField → String
  | .title => t
  | .date => d
  | .category => c
  | .image_url => i
  | .content => co

/-- Rendering of one chunk: literals verbatim, placeholders replaced by the
corresponding argument (no HTML-escaping). -/
def renderChunk (t d c i co : String) : Tpl → String
  | .lit s => s
  | .field f => fieldValue t d c i co f

/-- `HTML_TEMPLATE.format(title=t, date=d, category=c, image_url=i,
content=co)` at lines 187-193. -/
def renderTemplate (t d c i co : String) : String :=
  String.join (HTML_TEMPLATE.map (renderChunk t d c i co))

/-- Writing one HTML file: the new entry shadows any older entry at the
same path. -/
def fsWriteFile (fs : FS) (path text : String) : FS :=
  { fs with files := (path, text) :: fs.files }

/-- `BlogTool.add_post` (lines 143-203), as a function of the raw form
input, the current date string, the injected write outcomes and the
filesystem state.  Stages, in source order: build `post_data` (content
stripped, line 151); the all-fields-nonempty check (line 154); `int(...)`
on popularity (lines 158-162); index load with silent fallback (164-168);
`new_id` from the ids (170) - raising if the loaded JSON is not a list of
dicts; record construction and append (172-182); folder ensure (184-185);
template render (187-193); HTML write (195-197); index rewrite with
`json.dump(posts, f, indent=2)` (199-200). -/
def add_post (raw : RawInput) (today : String) (w : WriteOutcome) (fs : FS) :
    Except AddPostError AddPostOk × FS :=
  let contentStripped := pyStrip raw.content
  if raw.title = "" ∨ raw.category = "" ∨ raw.description = "" ∨ contentStripped = "" then
    (.error .missingField, fs)
  else
    match pyInt raw.popularity with
    | none => (.error .popularityNotNumeric, fs)
    | some popularity =>
      match loadPosts fs.index with
      | .arr posts =>
        match collectIds posts with
        | .error e => (.error e, fs)
        | .ok ids =>
          let new_id := listMax (ids ++ [0]) + 1
          let newRec := mkRecord raw today new_id popularity
          let outJson := Json.arr (posts ++ [newRec.toJson])
          let html := renderTemplate raw.title today raw.category raw.image contentStripped
          let fs1 := { fs with folderExists := true }
          if w.htmlOk then
            let fs2 := fsWriteFile fs1 (post_file_path new_id) html
            if w.indexOk then
              let fs3 := { fs2 with index := .valid outJson (dumpJson 0 outJson) }
              (.ok ⟨newRec, post_file_path new_id⟩, fs3)
            else (.error .writeFailed, fs2)
          else (.error .writeFailed, fs1)
      | _ => (.error .pyRuntimeError, fs)

/-- The `id` a loaded record actually carries: `some n` when the element is
a dict whose `"id"` key holds a number, `none` otherwise. -/
def recId : Json → Option Int
  | .obj kvs =>
    match dictLookup kvs "id" with
    | some (.num n) => some n
    | _ => none
  | _ => none

/-- The `url` a loaded record carries, when it is a dict with a string
`"url"` value. -/
def recUrl : Json → Option String
  | .obj kvs =>
    match dictLookup kvs "url" with
    | some (.str s) => some s
    | _ => none
  | _ => none

/-- A record's `url` agrees with the deterministic function of its `id`. -/
def urlConsistentB (p : Json) : Bool :=
  match recId p with
  | some n => recUrl p == some (post_url n)
  | none => false

/-- A loaded element on which line 170 cannot raise and whose `id`, if
present, is a number: a dict with `"id"` absent or numeric. -/
def idWellFormed : Json → Bool
  | .obj kvs =>
    match dictLookup kvs "id" with
    | none => true
    | some (.num _) => true
    | some _ => false
  | _ => false

/-- The value `post.get('id', 0)` takes on a well-formed element. -/
def idOrDefault : Json → Int
  | .obj kvs =>
    match dictLookup kvs "id" with
    | some (.num n) => n
    | _ => 0
  | _ => 0

/-- A dict element with no `"id"` key at all. -/
def hasNoId : Json → Bool
  | .obj kvs => (dictLookup kvs "id").isNone
  | _ => false

/-- The ids actually present in a loaded index. -/
def presentIds (l : List Json) : List Int := l.filterMap recId

/-- The maximum of a list of integers and `0`; this is
`max(list + [0])` in the Python of line 170. -/
def maxWithZero : List Int → Int
  | [] => 0
  | x :: xs => max x (maxWithZero xs)

theorem maxWithZero_nonneg (l : List Int) : 0 ≤ maxWithZero l := by
  induction l with
  | nil => exact le_refl 0
  | cons x xs ih => exact le_trans ih (le_max_right x (maxWithZero xs))

theorem le_maxWithZero {a : Int} {l : List Int} (h : a ∈ l) : a ≤ maxWithZero l := by
  induction l with
  | nil => cases h
  | cons x xs ih =>
    rcases List.mem_cons.mp h with rfl | h'
    · exact le_max_left _ _
    · exact le_trans (ih h') (le_max_right _ _)

theorem foldl_max_append_zero (l : List Int) (a : Int) :
    (l ++ [0]).foldl max a = max a (maxWithZero l) := by
  induction l generalizing a with
  | nil => rfl
  | cons x xs ih =>
    show (xs ++ [0]).foldl max (max a x) = max a (maxWithZero (x :: xs))
    rw [ih (max a x), maxWithZero, max_assoc]

/-- `max(ids + [0])` in Python is the maximum of the ids and `0`. -/
theorem listMax_append_zero (l : List Int) : listMax (l ++ [0]) = maxWithZero l := by
  cases l with
  | nil => rfl
  | cons x xs =>
    show (xs ++ [0]).foldl max x = maxWithZero (x :: xs)
    rw [foldl_max_append_zero, maxWithZero]

theorem recordIdOrDefault_of_wf (p : Json) (h : idWellFormed p = true) :
    recordIdOrDefault p = .ok (idOrDefault p) := by
  cases p with
  | obj kvs =>
    simp only [idWellFormed] at h
    simp only [recordIdOrDefault, idOrDefault]
    cases hl : dictLookup kvs "id" with
    | none => rfl
    | some v => cases v <;> simp_all
  | null => cases h
  | bool b => cases h
  | num n => cases h
  | str s => cases h
  | arr xs => cases h

theorem collectIds_of_wf (l : List Json) (h : ∀ p ∈ l, idWellFormed p = true) :
    collectIds l = .ok (l.map idOrDefault) := by
  induction l with
  | nil => rfl
  | cons p rest ih =>
    have hp := recordIdOrDefault_of_wf p (h p (List.mem_cons_self p rest))
    have hr := ih fun q hq => h q (List.mem_cons_of_mem p hq)
    simp [collectIds, hp, hr]

theorem recId_of_wf (p : Json) (h : idWellFormed p = true) :
    recId p = some (idOrDefault p) ∨ (recId p = none ∧ idOrDefault p = 0) := by
  cases p with
  | obj kvs =>
    simp only [idWellFormed] at h
    simp only [recId, idOrDefault]
    cases hl : dictLookup kvs "id" with
    | none => exact Or.inr ⟨rfl, rfl⟩
    | some v => cases v <;> simp_all
  | null => cases h
  | bool b => cases h
  | num n => cases h
  | str s => cases h
  | arr xs => cases h

/-- On well-formed elements, the per-element defaults of line 170 and the
ids actually present have the same maximum-with-zero: absent ids
contribute the `0` that is in the pool anyway. -/
theorem maxWithZero_defaults_eq_present (l : List Json)
    (h : ∀ p ∈ l, idWellFormed p = true) :
    maxWithZero (l.map idOrDefault) = maxWithZero (presentIds l) := by
  induction l with
  | nil => rfl
  | cons p rest ih =>
    have hrest := ih fun q hq => h q (List.mem_cons_of_mem p hq)
    simp only [presentIds] at hrest ⊢
    rcases recId_of_wf p (h p (List.mem_cons_self p rest)) with hc | ⟨hc, hz⟩
    · simp only [List.map_cons, maxWithZero, List.filterMap_cons, hc]
      rw [hrest]
    · simp only [List.map_cons, maxWithZero, List.filterMap_cons, hc, hz]
      rw [hrest]
      exact max_eq_right (maxWithZero_nonneg _)

theorem add_post_missing_field (raw : RawInput) (today : String) (w : WriteOutcome)
    (fs : FS)
    (h : raw.title = "" ∨ raw.category = "" ∨ raw.description = "" ∨ pyStrip raw.content = "") :
    add_post raw today w fs = (.error .missingField, fs) := by
  simp only [add_post]
  rw [if_pos h]

theorem add_post_pop_not_numeric (raw : RawInput) (today : String) (w : WriteOutcome)
    (fs : FS)
    (hT : raw.title ≠ "") (hC : raw.category ≠ "") (hD : raw.description ≠ "")
    (hCo : pyStrip raw.content ≠ "") (hp : pyInt raw.popularity = none) :
    add_post raw today w fs = (.error .popularityNotNumeric, fs) := by
  simp only [add_post]
  rw [if_neg (by simp [hT, hC, hD, hCo]), hp]

/-- Unfolding of the whole success path: validation passed, the loaded
index is a list whose elements survive line 170, and both writes succeed. -/
theorem add_post_success (raw : RawInput) (today : String) (fs : FS)
    (posts : List Json) (ids : List Int) (p : Int)
    (hT : raw.title ≠ "") (hC : raw.category ≠ "") (hD : raw.description ≠ "")
    (hCo : pyStrip raw.content ≠ "") (hp : pyInt raw.popularity = some p)
    (hload : loadPosts fs.index = .arr posts)
    (hids : collectIds posts = .ok ids) :
    add_post raw today ⟨true, true⟩ fs =
      (.ok ⟨mkRecord raw today (listMax (ids ++ [0]) + 1) p,
            post_file_path (listMax (ids ++ [0]) + 1)⟩,
       { index := .valid
           (.arr (posts ++ [(mkRecord raw today (listMax (ids ++ [0]) + 1) p).toJson]))
           (dumpJson 0 (.arr (posts ++ [(mkRecord raw today (listMax (ids ++ [0]) + 1) p).toJson]))),
         folderExists := true,
         files := (post_file_path (listMax (ids ++ [0]) + 1),
                   renderTemplate raw.title today raw.category raw.image (pyStrip raw.content))
                  :: fs.files }) := by
  simp only [add_post]
  rw [if_neg (by simp [hT, hC, hD, hCo]), hp, hload]
  simp only [hids]
  rfl

/-- Unfolding of the run in which the HTML write raises: the error
escapes with the index and the HTML files untouched (only the output
folder was ensured). -/
theorem add_post_html_write_fails (raw : RawInput) (today : String) (b : Bool) (fs : FS)
    (posts : List Json) (ids : List Int) (p : Int)
    (hT : raw.title ≠ "") (hC : raw.category ≠ "") (hD : raw.description ≠ "")
    (hCo : pyStrip raw.content ≠ "") (hp : pyInt raw.popularity = some p)
    (hload : loadPosts fs.index = .arr posts)
    (hids : collectIds posts = .ok ids) :
    add_post raw today ⟨false, b⟩ fs =
      (.error .writeFailed, { fs with folderExists := true }) := by
  simp only [add_post]
  rw [if_neg (by simp [hT, hC, hD, hCo]), hp, hload]
  simp only [hids]
  rfl

/-- Unfolding of the run in which the HTML write succeeds but the index
write raises: the HTML file is on disk, the index is untouched (the
orphan-file outcome). -/
theorem add_post_index_write_fails (raw : RawInput) (today : String) (fs : FS)
    (posts : List Json) (ids : List Int) (p : Int)
    (hT : raw.title ≠ "") (hC : raw.category ≠ "") (hD : raw.description ≠ "")
    (hCo : pyStrip raw.content ≠ "") (hp : pyInt raw.popularity = some p)
    (hload : loadPosts fs.index = .arr posts)
    (hids : collectIds posts = .ok ids) :
    add_post raw today ⟨true, false⟩ fs =
      (.error .writeFailed,
       { fs with folderExists := true,
                 files := (post_file_path (listMax (ids ++ [0]) + 1),
                           renderTemplate raw.title today raw.category raw.image
                             (pyStrip raw.content)) :: fs.files }) := by
  simp only [add_post]
  rw [if_neg (by simp [hT, hC, hD, hCo]), hp, hload]
  simp only [hids]
  rfl

/-- The identifier the program assigns next, phrased over the ids actually
present in the loaded index: `max(present ids ∪ {0}) + 1`. -/
def nextId (posts : List Json) : Int := maxWithZero (presentIds posts) + 1

theorem recId_toJson (r : PostRecord) : recId r.toJson = some r.id := rfl

theorem recUrl_toJson (r : PostRecord) : recUrl r.toJson = some r.url := rfl

theorem post_url_eq_file_path (n : Int) : post_url n = post_file_path n := rfl

theorem urlConsistentB_mkRecord (raw : RawInput) (today : String) (n p : Int) :
    urlConsistentB (mkRecord raw today n p).toJson = true := by
  simp [urlConsistentB, recId_toJson, recUrl_toJson, mkRecord, post_url]

theorem idWellFormed_of_isSome_recId (q : Json) (h : (recId q).isSome = true) :
    idWellFormed q = true := by
  cases q with
  | obj kvs =>
    simp only [recId] at h
    simp only [idWellFormed]
    cases hl : dictLookup kvs "id" with
    | none => simp [hl] at h
    | some v => cases v <;> simp_all
  | null => simp [recId] at h
  | bool b => simp [recId] at h
  | num n => simp [recId] at h
  | str s => simp [recId] at h
  | arr xs => simp [recId] at h

theorem idOrDefault_of_recId (q : Json) (n : Int) (h : recId q = some n) :
    idOrDefault q = n := by
  cases q with
  | obj kvs =>
    simp only [recId] at h
    simp only [idOrDefault]
    cases hl : dictLookup kvs "id" with
    | none => simp [hl] at h
    | some v => cases v <;> simp_all
  | null => simp [recId] at h
  | bool b => simp [recId] at h
  | num n => simp [recId] at h
  | str s => simp [recId] at h
  | arr xs => simp [recId] at h

theorem hasNoId_wf (q : Json) (h : hasNoId q = true) :
    idWellFormed q = true ∧ idOrDefault q = 0 := by
  cases q with
  | obj kvs =>
    simp only [hasNoId, Option.isNone_iff_eq_none] at h
    simp [idWellFormed, idOrDefault, h]
  | null => cases h
  | bool b => cases h
  | num n => cases h
  | str s => cases h
  | arr xs => cases h

theorem recordIdOrDefault_of_hasNoId (q : Json) (h : hasNoId q = true) :
    recordIdOrDefault q = .ok 0 := by
  cases q with
  | obj kvs =>
    simp only [hasNoId, Option.isNone_iff_eq_none] at h
    simp [recordIdOrDefault, h]
  | null => cases h
  | bool b => cases h
  | num n => cases h
  | str s => cases h
  | arr xs => cases h

theorem maxWithZero_of_all_zero (l : List Int) (h : ∀ x ∈ l, x = 0) :
    maxWithZero l = 0 := by
  induction l with
  | nil => rfl
  | cons x xs ih =>
    rw [maxWithZero, h x (List.mem_cons_self x xs),
        ih fun y hy => h y (List.mem_cons_of_mem x hy)]
    exact max_self 0

/-- C1: for every index (its loaded contents a list of records, each a
dict whose `id`, if present, is a number - this includes the empty fallback
for a missing or unparsable file) and every valid input, `add_post`
assigns the new record the identifier `max(ids present in the index,
default 0) + 1`. -/
theorem C1_next_id_is_max_plus_one (raw : RawInput) (today : String) (fs : FS)
    (posts : List Json) (p : Int)
    (hT : raw.title ≠ "") (hC : raw.category ≠ "") (hD : raw.description ≠ "")
    (hCo : pyStrip raw.content ≠ "") (hp : pyInt raw.popularity = some p)
    (hload : loadPosts fs.index = .arr posts)
    (hwf : ∀ q ∈ posts, idWellFormed q = true) :
    ((add_post raw today ⟨true, true⟩ fs).1.map fun res => res.record.id) =
      .ok (nextId posts) := by
  rw [add_post_success raw today fs posts (posts.map idOrDefault) p hT hC hD hCo hp hload
      (collectIds_of_wf posts hwf)]
  simp only [Except.map, mkRecord, nextId, listMax_append_zero,
    maxWithZero_defaults_eq_present posts hwf]

/-- C1 witness: an index containing ids 3, 1, 5 gets next id 6, and a
missing index file gets id 1. -/
theorem C1_witness :
    (((add_post ⟨"Hello", "News", "", "First post", "50", "<p>Hi</p>"⟩ "June 05, 2025"
        ⟨true, true⟩
        ⟨.valid (.arr [.obj [("id", .num 3)], .obj [("id", .num 1)], .obj [("id", .num 5)]]) "x",
         false, []⟩).1.map fun res => res.record.id) = .ok 6) ∧
    (((add_post ⟨"Hello", "News", "", "First post", "50", "<p>Hi</p>"⟩ "June 05, 2025"
        ⟨true, true⟩ ⟨.missing, false, []⟩).1.map fun res => res.record.id) = .ok 1) :=
  ⟨(C1_next_id_is_max_plus_one ⟨"Hello", "News", "", "First post", "50", "<p>Hi</p>"⟩
      "June 05, 2025"
      ⟨.valid (.arr [.obj [("id", .num 3)], .obj [("id", .num 1)], .obj [("id", .num 5)]]) "x",
       false, []⟩
      [.obj [("id", .num 3)], .obj [("id", .num 1)], .obj [("id", .num 5)]] 50
      (by decide) (by decide) (by decide) (by decide) rfl rfl (by decide)).trans rfl,
   (C1_next_id_is_max_plus_one ⟨"Hello", "News", "", "First post", "50", "<p>Hi</p>"⟩
      "June 05, 2025" ⟨.missing, false, []⟩ [] 50
      (by decide) (by decide) (by decide) (by decide) rfl rfl (by decide)).trans rfl⟩

/-- C2 counterexample: an index file whose content is valid JSON but not a
sequence of records (here the single number `5`) is not treated as empty -
line 170 raises an uncaught `TypeError` instead, so an error is surfaced
and the file is left untouched, contradicting the claim that every parse
failure falls back silently to the empty collection with id 1. -/
theorem C2_counterexample :
    add_post ⟨"Hello", "News", "", "First post", "50", "<p>Hi</p>"⟩ "June 05, 2025"
        ⟨true, true⟩ ⟨.valid (.num 5) "5", false, []⟩ =
      (.error .pyRuntimeError, ⟨.valid (.num 5) "5", false, []⟩) := rfl

/-- C2 (amended): if the index file does not exist or its content is not
valid JSON (`FileNotFoundError` / `json.JSONDecodeError`), `add_post`
treats the collection as empty with no error surfaced, assigns id 1 and on
success overwrites the file with a valid one-element array; an index that
parses to JSON other than an array of records is instead an uncaught
error. -/
theorem C2_missing_or_invalid_treated_empty (raw : RawInput) (today : String)
    (fs : FS) (p : Int)
    (hidx : fs.index = .missing ∨ ∃ t, fs.index = .invalid t)
    (hT : raw.title ≠ "") (hC : raw.category ≠ "") (hD : raw.description ≠ "")
    (hCo : pyStrip raw.content ≠ "") (hp : pyInt raw.popularity = some p) :
    add_post raw today ⟨true, true⟩ fs =
      (.ok ⟨mkRecord raw today 1 p, post_file_path 1⟩,
       { index := .valid (.arr [(mkRecord raw today 1 p).toJson])
                    (dumpJson 0 (.arr [(mkRecord raw today 1 p).toJson])),
         folderExists := true,
         files := (post_file_path 1,
                   renderTemplate raw.title today raw.category raw.image (pyStrip raw.content))
                  :: fs.files }) := by
  have hload : loadPosts fs.index = .arr [] := by
    rcases hidx with h | ⟨t, h⟩ <;> rw [h] <;> rfl
  exact add_post_success raw today fs [] [] p hT hC hD hCo hp hload rfl

/-- C2 witness: a concrete invalid index file is silently replaced by the
one-element array for the new record with id 1. -/
theorem C2_witness :
    add_post ⟨"Hello", "News", "", "First post", "50", "<p>Hi</p>"⟩ "June 05, 2025"
        ⟨true, true⟩ ⟨.invalid "not json", false, []⟩ =
      (.ok ⟨mkRecord ⟨"Hello", "News", "", "First post", "50", "<p>Hi</p>"⟩ "June 05, 2025" 1 50,
            post_file_path 1⟩,
       { index := .valid
           (.arr [(mkRecord ⟨"Hello", "News", "", "First post", "50", "<p>Hi</p>"⟩
                     "June 05, 2025" 1 50).toJson])
           (dumpJson 0
             (.arr [(mkRecord ⟨"Hello", "News", "", "First post", "50", "<p>Hi</p>"⟩
                       "June 05, 2025" 1 50).toJson])),
         folderExists := true,
         files := [(post_file_path 1,
                    renderTemplate "Hello" "June 05, 2025" "News" "" (pyStrip "<p>Hi</p>"))] }) :=
  C2_missing_or_invalid_treated_empty _ _ _ 50 (Or.inr ⟨_, rfl⟩) (by decide) (by decide)
    (by decide) (by decide) rfl

/-- C3: validation runs before any filesystem access with the first
failure winning: an empty title, category, description or trimmed content
yields the missing-field error, and otherwise a popularity that does not
parse as an integer yields the non-numeric error; in both cases the whole
filesystem state (index file, output folder, HTML files) is returned
unmodified. -/
theorem C3_validation_first_failure_no_writes (raw : RawInput) (today : String)
    (w : WriteOutcome) (fs : FS) :
    ((raw.title = "" ∨ raw.category = "" ∨ raw.description = "" ∨ pyStrip raw.content = "") →
        add_post raw today w fs = (.error .missingField, fs)) ∧
    (raw.title ≠ "" → raw.category ≠ "" → raw.description ≠ "" → pyStrip raw.content ≠ "" →
        pyInt raw.popularity = none →
        add_post raw today w fs = (.error .popularityNotNumeric, fs)) :=
  ⟨fun h => add_post_missing_field raw today w fs h,
   fun hT hC hD hCo hp => add_post_pop_not_numeric raw today w fs hT hC hD hCo hp⟩

/-- C3 witness: an empty title fails with the missing-field error and a
non-numeric popularity fails with the non-numeric error, both leaving the
state untouched. -/
theorem C3_witness :
    add_post ⟨"", "News", "", "d", "50", "c"⟩ "June 05, 2025" ⟨true, true⟩
        ⟨.missing, false, []⟩ = (.error .missingField, ⟨.missing, false, []⟩) ∧
    add_post ⟨"T", "News", "", "d", "5x", "c"⟩ "June 05, 2025" ⟨true, true⟩
        ⟨.missing, false, []⟩ = (.error .popularityNotNumeric, ⟨.missing, false, []⟩) :=
  ⟨(C3_validation_first_failure_no_writes _ _ _ _).1 (Or.inl rfl),
   (C3_validation_first_failure_no_writes _ _ _ _).2 (by decide) (by decide) (by decide)
     (by decide) rfl⟩

/-- C4: a successful publish rewrites the index file to exactly the prior
records, unchanged and in their original order with no field loss, with
the one new record appended at the end, and the file text is the
`json.dump(..., indent=2)` serialization of that array. -/
theorem C4_index_append_preserves_prior (raw : RawInput) (today : String) (fs : FS)
    (prior : List Json) (text : String) (ids : List Int) (p : Int)
    (hidx : fs.index = .valid (.arr prior) text)
    (hT : raw.title ≠ "") (hC : raw.category ≠ "") (hD : raw.description ≠ "")
    (hCo : pyStrip raw.content ≠ "") (hp : pyInt raw.popularity = some p)
    (hids : collectIds prior = .ok ids) :
    (add_post raw today ⟨true, true⟩ fs).2.index =
      .valid (.arr (prior ++ [(mkRecord raw today (listMax (ids ++ [0]) + 1) p).toJson]))
        (dumpJson 0
          (.arr (prior ++ [(mkRecord raw today (listMax (ids ++ [0]) + 1) p).toJson]))) := by
  have hload : loadPosts fs.index = .arr prior := by rw [hidx]; rfl
  rw [add_post_success raw today fs prior ids p hT hC hD hCo hp hload hids]

/-- C4 witness: a two-record index is rewritten with both records intact
and the new record appended. -/
theorem C4_witness :
    (add_post ⟨"T", "Cat", "i.png", "D", "7", " body "⟩ "July 01, 2025" ⟨true, true⟩
        ⟨.valid (.arr [.obj [("id", .num 1)], .obj [("id", .num 2), ("x", .str "y")]]) "t",
         true, []⟩).2.index =
      .valid
        (.arr ([.obj [("id", .num 1)], .obj [("id", .num 2), ("x", .str "y")]] ++
          [(mkRecord ⟨"T", "Cat", "i.png", "D", "7", " body "⟩ "July 01, 2025"
              (listMax ([1, 2] ++ [0]) + 1) 7).toJson]))
        (dumpJson 0
          (.arr ([.obj [("id", .num 1)], .obj [("id", .num 2), ("x", .str "y")]] ++
            [(mkRecord ⟨"T", "Cat", "i.png", "D", "7", " body "⟩ "July 01, 2025"
                (listMax ([1, 2] ++ [0]) + 1) 7).toJson]))) :=
  C4_index_append_preserves_prior ⟨"T", "Cat", "i.png", "D", "7", " body "⟩ "July 01, 2025"
    ⟨.valid (.arr [.obj [("id", .num 1)], .obj [("id", .num 2), ("x", .str "y")]]) "t",
     true, []⟩
    [.obj [("id", .num 1)], .obj [("id", .num 2), ("x", .str "y")]] "t" [1, 2] 7
    rfl (by decide) (by decide) (by decide) (by decide) rfl rfl

/-- C5: once validation has passed, the rendered HTML file is written
before the index file is rewritten: if the HTML write fails the run aborts
with the index file and the HTML files unmodified (only the folder was
ensured); if the HTML write succeeds and the index write fails, the HTML
file is on disk with the index unmodified; and on full success the new
index entry's HTML file exists at the reported path with the rendered
content. -/
theorem C5_html_written_before_index (raw : RawInput) (today : String) (fs : FS)
    (posts : List Json) (ids : List Int) (p : Int) (b : Bool)
    (hT : raw.title ≠ "") (hC : raw.category ≠ "") (hD : raw.description ≠ "")
    (hCo : pyStrip raw.content ≠ "") (hp : pyInt raw.popularity = some p)
    (hload : loadPosts fs.index = .arr posts)
    (hids : collectIds posts = .ok ids) :
    (add_post raw today ⟨false, b⟩ fs =
       (.error .writeFailed, { fs with folderExists := true })) ∧
    (add_post raw today ⟨true, false⟩ fs =
       (.error .writeFailed,
        { fs with folderExists := true,
                  files := (post_file_path (listMax (ids ++ [0]) + 1),
                            renderTemplate raw.title today raw.category raw.image
                              (pyStrip raw.content)) :: fs.files })) ∧
    ((add_post raw today ⟨true, true⟩ fs).1 =
        .ok ⟨mkRecord raw today (listMax (ids ++ [0]) + 1) p,
             post_file_path (listMax (ids ++ [0]) + 1)⟩ ∧
     (add_post raw today ⟨true, true⟩ fs).2.files =
        (post_file_path (listMax (ids ++ [0]) + 1),
         renderTemplate raw.title today raw.category raw.image (pyStrip raw.content))
          :: fs.files) := by
  refine ⟨add_post_html_write_fails raw today b fs posts ids p hT hC hD hCo hp hload hids,
    add_post_index_write_fails raw today fs posts ids p hT hC hD hCo hp hload hids, ?_, ?_⟩ <;>
    rw [add_post_success raw today fs posts ids p hT hC hD hCo hp hload hids]

/-- C5 witness: with an empty index, a failed HTML write leaves the state
untouched apart from the ensured folder, a failed index write leaves the
orphan HTML file, and a full success records both writes. -/
theorem C5_witness :
    (add_post ⟨"T", "Cat", "", "D", "7", "b"⟩ "July 01, 2025" ⟨false, true⟩
        ⟨.missing, false, []⟩ =
       (.error .writeFailed, { (⟨.missing, false, []⟩ : FS) with folderExists := true })) ∧
    (add_post ⟨"T", "Cat", "", "D", "7", "b"⟩ "July 01, 2025" ⟨true, false⟩
        ⟨.missing, false, []⟩ =
       (.error .writeFailed,
        { (⟨.missing, false, []⟩ : FS) with
            folderExists := true,
            files := (post_file_path (listMax ([] ++ [0]) + 1),
                      renderTemplate "T" "July 01, 2025" "Cat" "" (pyStrip "b")) :: [] })) ∧
    ((add_post ⟨"T", "Cat", "", "D", "7", "b"⟩ "July 01, 2025" ⟨true, true⟩
        ⟨.missing, false, []⟩).1 =
        .ok ⟨mkRecord ⟨"T", "Cat", "", "D", "7", "b"⟩ "July 01, 2025"
               (listMax ([] ++ [0]) + 1) 7,
             post_file_path (listMax ([] ++ [0]) + 1)⟩ ∧
     (add_post ⟨"T", "Cat", "", "D", "7", "b"⟩ "July 01, 2025" ⟨true, true⟩
        ⟨.missing, false, []⟩).2.files =
        (post_file_path (listMax ([] ++ [0]) + 1),
         renderTemplate "T" "July 01, 2025" "Cat" "" (pyStrip "b")) :: []) :=
  C5_html_written_before_index ⟨"T", "Cat", "", "D", "7", "b"⟩ "July 01, 2025"
    ⟨.missing, false, []⟩ [] [] 7 true
    (by decide) (by decide) (by decide) (by decide) rfl rfl rfl

/-- C6: for every title, date, category, image and content, the rendered
page is exactly the fixed template text with the five values substituted
verbatim (no HTML-escaping) at their placeholder positions - the
surrounding segments `SEG_A` .. `SEG_H` are constants, so the structure is
identical across all posts and the output is reproducible from the inputs
and the date alone. -/
theorem C6_render_is_template_substitution (t d c i co : String) :
    renderTemplate t d c i co =
      SEG_A ++ t ++ SEG_B ++ t ++ SEG_C ++ d ++ SEG_D ++ c ++ SEG_E ++ i ++
        SEG_F ++ t ++ SEG_G ++ co ++ SEG_H := by
  simp [renderTemplate, HTML_TEMPLATE, renderChunk, fieldValue, String.join,
    String.empty_append, String.append_assoc]

/-- C7: publish preserves the index invariant: starting from a valid index
whose records each carry a numeric id, with pairwise-distinct ids and with
each url equal to the fixed output folder joined with `post<id>.html` for
the record's own id, the rewritten index again has pairwise-distinct ids
and url-consistent records, and the HTML file is written at the new
record's url. -/
theorem C7_invariant_preserved (raw : RawInput) (today : String) (fs : FS)
    (prior : List Json) (text : String) (p : Int)
    (hidx : fs.index = .valid (.arr prior) text)
    (hT : raw.title ≠ "") (hC : raw.category ≠ "") (hD : raw.description ≠ "")
    (hCo : pyStrip raw.content ≠ "") (hp : pyInt raw.popularity = some p)
    (hall : ∀ q ∈ prior, (recId q).isSome = true)
    (hdist : (prior.filterMap recId).Pairwise (fun a b => a ≠ b))
    (hurl : ∀ q ∈ prior, urlConsistentB q = true) :
    ∃ out, (add_post raw today ⟨true, true⟩ fs).2.index =
        .valid (.arr out) (dumpJson 0 (.arr out)) ∧
      (out.filterMap recId).Pairwise (fun a b => a ≠ b) ∧
      (∀ q ∈ out, urlConsistentB q = true) ∧
      (post_url (nextId prior),
       renderTemplate raw.title today raw.category raw.image (pyStrip raw.content)) ∈
        (add_post raw today ⟨true, true⟩ fs).2.files := by
  have hwf : ∀ q ∈ prior, idWellFormed q = true :=
    fun q hq => idWellFormed_of_isSome_recId q (hall q hq)
  have hload : loadPosts fs.index = .arr prior := by rw [hidx]; rfl
  have hN : listMax (prior.map idOrDefault ++ [0]) + 1 = nextId prior := by
    rw [listMax_append_zero, maxWithZero_defaults_eq_present prior hwf, nextId]
  have hrun := add_post_success raw today fs prior (prior.map idOrDefault) p hT hC hD hCo hp
    hload (collectIds_of_wf prior hwf)
  refine ⟨prior ++ [(mkRecord raw today (nextId prior) p).toJson], ?_, ?_, ?_, ?_⟩
  · rw [hrun, hN]
  · rw [List.filterMap_append, List.pairwise_append]
    refine ⟨hdist, ?_, ?_⟩
    · simp [recId_toJson, mkRecord]
    · intro a ha b hb
      have hb' : b = nextId prior := by
        simpa [recId_toJson, mkRecord] using hb
      have hle : a ≤ maxWithZero (presentIds prior) := le_maxWithZero ha
      rw [hb']
      intro hcontra
      rw [hcontra, nextId] at hle
      omega
  · intro q hq
    rcases List.mem_append.mp hq with h | h
    · exact hurl q h
    · rw [List.mem_singleton.mp h]
      exact urlConsistentB_mkRecord raw today (nextId prior) p
  · rw [hrun, hN]
    exact List.mem_cons_self _ _

/-- C7 witness: a one-record index with id 1 and a consistent url is
extended to a two-record index with distinct ids 1 and 2, consistent urls
and the HTML file at the new record's url. -/
theorem C7_witness :
    ∃ out, (add_post ⟨"T", "Cat", "", "D", "7", "b"⟩ "July 01, 2025" ⟨true, true⟩
        ⟨.valid (.arr [.obj [("id", .num 1), ("url", .str "blogposts/post1.html")]]) "t",
         true, []⟩).2.index =
        .valid (.arr out) (dumpJson 0 (.arr out)) ∧
      (out.filterMap recId).Pairwise (fun a b => a ≠ b) ∧
      (∀ q ∈ out, urlConsistentB q = true) ∧
      (post_url (nextId [.obj [("id", .num 1), ("url", .str "blogposts/post1.html")]]),
       renderTemplate "T" "July 01, 2025" "Cat" "" (pyStrip "b")) ∈
        (add_post ⟨"T", "Cat", "", "D", "7", "b"⟩ "July 01, 2025" ⟨true, true⟩
          ⟨.valid (.arr [.obj [("id", .num 1), ("url", .str "blogposts/post1.html")]]) "t",
           true, []⟩).2.files :=
  C7_invariant_preserved ⟨"T", "Cat", "", "D", "7", "b"⟩ "July 01, 2025"
    ⟨.valid (.arr [.obj [("id", .num 1), ("url", .str "blogposts/post1.html")]]) "t",
     true, []⟩
    [.obj [("id", .num 1), ("url", .str "blogposts/post1.html")]] "t" 7
    rfl (by decide) (by decide) (by decide) (by decide) rfl
    (by decide) (by decide) (by decide)

/-- C8: any popularity string that parses as an integer is accepted and
the parsed integer stored unchanged in the record - only the integer type
is enforced, not the 1-100 range. -/
theorem C8_popularity_stored_unchanged (raw : RawInput) (today : String) (fs : FS)
    (posts : List Json) (ids : List Int) (p : Int)
    (hT : raw.title ≠ "") (hC : raw.category ≠ "") (hD : raw.description ≠ "")
    (hCo : pyStrip raw.content ≠ "") (hp : pyInt raw.popularity = some p)
    (hload : loadPosts fs.index = .arr posts)
    (hids : collectIds posts = .ok ids) :
    ((add_post raw today ⟨true, true⟩ fs).1.map fun res => res.record.popularity) =
      .ok p := by
  rw [add_post_success raw today fs posts ids p hT hC hD hCo hp hload hids]
  rfl

/-- C8 witness: the out-of-range popularity strings "0", "-5" and "500"
are all accepted and stored as the integers 0, -5 and 500. -/
theorem C8_witness :
    (((add_post ⟨"T", "Cat", "", "D", "0", "b"⟩ "July 01, 2025" ⟨true, true⟩
        ⟨.missing, false, []⟩).1.map fun res => res.record.popularity) = .ok 0) ∧
    (((add_post ⟨"T", "Cat", "", "D", "-5", "b"⟩ "July 01, 2025" ⟨true, true⟩
        ⟨.missing, false, []⟩).1.map fun res => res.record.popularity) = .ok (-5)) ∧
    (((add_post ⟨"T", "Cat", "", "D", "500", "b"⟩ "July 01, 2025" ⟨true, true⟩
        ⟨.missing, false, []⟩).1.map fun res => res.record.popularity) = .ok 500) :=
  ⟨C8_popularity_stored_unchanged ⟨"T", "Cat", "", "D", "0", "b"⟩ "July 01, 2025"
     ⟨.missing, false, []⟩ [] [] 0 (by decide) (by decide) (by decide) (by decide) rfl rfl rfl,
   C8_popularity_stored_unchanged ⟨"T", "Cat", "", "D", "-5", "b"⟩ "July 01, 2025"
     ⟨.missing, false, []⟩ [] [] (-5) (by decide) (by decide) (by decide) (by decide) rfl rfl rfl,
   C8_popularity_stored_unchanged ⟨"T", "Cat", "", "D", "500", "b"⟩ "July 01, 2025"
     ⟨.missing, false, []⟩ [] [] 500 (by decide) (by decide) (by decide) (by decide) rfl rfl rfl⟩

/-- C9: whitespace trimming applies only to the content field: title,
category and description need only be non-empty - a whitespace-only value
passes validation - and each is stored verbatim in the record. -/
theorem C9_only_content_trimmed (raw : RawInput) (today : String) (fs : FS)
    (posts : List Json) (ids : List Int) (p : Int)
    (hT : raw.title ≠ "") (hC : raw.category ≠ "") (hD : raw.description ≠ "")
    (hCo : pyStrip raw.content ≠ "") (hp : pyInt raw.popularity = some p)
    (hload : loadPosts fs.index = .arr posts)
    (hids : collectIds posts = .ok ids) :
    ((add_post raw today ⟨true, true⟩ fs).1.map fun res =>
        (res.record.title, res.record.category, res.record.description)) =
      .ok (raw.title, raw.category, raw.description) := by
  rw [add_post_success raw today fs posts ids p hT hC hD hCo hp hload hids]
  rfl

/-- C9 witness: whitespace-only title, category and description pass
validation and are stored exactly as entered. -/
theorem C9_witness :
    ((add_post ⟨" ", "\t", "", "  ", "50", "b"⟩ "July 01, 2025" ⟨true, true⟩
        ⟨.missing, false, []⟩).1.map fun res =>
        (res.record.title, res.record.category, res.record.description)) =
      .ok (" ", "\t", "  ") :=
  C9_only_content_trimmed ⟨" ", "\t", "", "  ", "50", "b"⟩ "July 01, 2025"
    ⟨.missing, false, []⟩ [] [] 50 (by decide) (by decide) (by decide) (by decide) rfl rfl rfl

/-- C10: a loaded record with no id field contributes 0 to the maximum
rather than raising, so an index whose records all lack ids assigns the
next id 1. -/
theorem C10_missing_ids_contribute_zero (raw : RawInput) (today : String) (fs : FS)
    (posts : List Json) (p : Int)
    (hT : raw.title ≠ "") (hC : raw.category ≠ "") (hD : raw.description ≠ "")
    (hCo : pyStrip raw.content ≠ "") (hp : pyInt raw.popularity = some p)
    (hload : loadPosts fs.index = .arr posts)
    (hnone : ∀ q ∈ posts, hasNoId q = true) :
    (∀ q, hasNoId q = true → recordIdOrDefault q = .ok 0) ∧
    ((add_post raw today ⟨true, true⟩ fs).1.map fun res => res.record.id) = .ok 1 := by
  refine ⟨fun q hq => recordIdOrDefault_of_hasNoId q hq, ?_⟩
  have hwf : ∀ q ∈ posts, idWellFormed q = true := fun q hq => (hasNoId_wf q (hnone q hq)).1
  rw [add_post_success raw today fs posts (posts.map idOrDefault) p hT hC hD hCo hp hload
      (collectIds_of_wf posts hwf)]
  have hzero : ∀ x ∈ posts.map idOrDefault, x = 0 := by
    intro x hx
    rcases List.mem_map.mp hx with ⟨q, hq, rfl⟩
    exact (hasNoId_wf q (hnone q hq)).2
  simp only [Except.map, mkRecord, listMax_append_zero, maxWithZero_of_all_zero _ hzero,
    zero_add]

/-- C10 witness: an index of two records, neither carrying an id, yields
next id 1; the contribution lemma applied to the concrete record without
an id gives 0. -/
theorem C10_witness :
    (∀ q, hasNoId q = true → recordIdOrDefault q = .ok 0) ∧
    ((add_post ⟨"T", "Cat", "", "D", "7", "b"⟩ "July 01, 2025" ⟨true, true⟩
        ⟨.valid (.arr [.obj [("title", .str "a")], .obj []]) "t", false, []⟩).1.map
        fun res => res.record.id) = .ok 1 :=
  C10_missing_ids_contribute_zero ⟨"T", "Cat", "", "D", "7", "b"⟩ "July 01, 2025"
    ⟨.valid (.arr [.obj [("title", .str "a")], .obj []]) "t", false, []⟩
    [.obj [("title", .str "a")], .obj []] 7
    (by decide) (by decide) (by decide) (by decide) rfl rfl (by decide)

end PostGen
